import Mathlib

/-!
Shallow embedding of the lox-interpreter-ci core: the error model
(src/src/error.rs), the token model (src/src/token.rs), the scanner
(src/src/lexer/scanner.rs), the parser (src/src/parser/parser.rs), the runtime
value model (src/src/parser/value.rs) and the evaluator (src/src/parser/expr.rs).
Of the superseded historical files, src/src/Scanner.rs and src/src/Token.rs are
not embedded: the spec designates the lexer/ and parser/ versions as the
authoritative final forms.

Modelling conventions:
* Rust `f64` is modelled by the exact rationals `ℚ`.  Every theorem below only
  involves small integer-valued literals on which `f64` arithmetic is exact, so
  no rounding behaviour is relevant to any statement.
* Rust `String` byte indexing and slicing are modelled over `List Char`.  All
  concrete inputs appearing in the theorems are ASCII, where byte positions and
  character positions coincide.
* A Rust panic (`unwrap` on `None`, out-of-bounds slicing, `usize` underflow)
  is modelled by the `Res.panic` outcome; `Res.err e` models returning
  `Err(e)`.  The loops of the scanner and the mutual recursion of the parser
  are given explicit fuel; running out of fuel is also mapped to `Res.panic`
  and is never reached at any concrete input evaluated below (every loop
  iteration consumes at least one character or token).
-/

namespace Lox

/-- Outcome of a fallible Rust computation: `ok` models `Ok`, `err` models an
`Err` value returned to the caller, and `panic` models a process-aborting
panic (`unwrap` failure, out-of-bounds slice, integer underflow). -/
inductive Res (ε α : Type) where
  | panic : Res ε α
  | err (e : ε) : Res ε α
  | ok (a : α) : Res ε α
  deriving DecidableEq, Repr

/-- src/src/error.rs lines 1-7.  The source constructor `Type` is a Lean
keyword, so it is rendered `TypeErr` here; no other renaming. -/
inductive ErrorKind where
  | Syntax
  | Runtime
  | Parse
  | TypeErr
  deriving DecidableEq, Repr

/-- src/src/error.rs lines 9-24. -/
structure Position where
  line : Nat
  column : Nat
  offset : Nat
  deriving DecidableEq, Repr

/-- src/src/error.rs lines 16-23. -/
def Position.new (line column offset : Nat) : Position :=
  { line := line, column := column, offset := offset }

/-- src/src/error.rs lines 26-32. -/
structure Error where
  kind : ErrorKind
  message : String
  position : Position
  help : Option String
  deriving DecidableEq, Repr

/-- src/src/error.rs lines 35-42 (`Error::new`). -/
def Error.new (kind : ErrorKind) (message : String) (position : Position) : Error :=
  { kind := kind, message := message, position := position, help := none }

/-- src/src/error.rs lines 43-46 (`with_help`). -/
def Error.with_help (e : Error) (help : String) : Error :=
  { e with help := some help }

/-- src/src/error.rs lines 47-49. -/
def Error.syntax (message : String) (position : Position) : Error :=
  Error.new ErrorKind.Syntax message position

/-- src/src/error.rs lines 51-53. -/
def Error.runtime (message : String) (position : Position) : Error :=
  Error.new ErrorKind.Runtime message position

/-- src/src/error.rs lines 55-57. -/
def Error.parse (message : String) (position : Position) : Error :=
  Error.new ErrorKind.Parse message position

/-- src/src/error.rs lines 76-82 (`invalid_operand_types`): the message is
built with Rust `format!`; string concatenation reproduces it. -/
def Error.invalid_operand_types (op left right : String) (position : Position) : Error :=
  (Error.runtime ("Invalid operand types for " ++ op ++ ": " ++ left ++ " and " ++ right)
      position).with_help ("The " ++ op ++ " operator requires compatible types")

/-- src/src/token.rs lines 1-48 (`TokenKind`). -/
inductive TokenKind where
  | LeftParen
  | RightParen
  | LeftBrace
  | RightBrace
  | Comma
  | Dot
  | Minus
  | Plus
  | Semicolon
  | Slash
  | Star
  | Colon
  | Question
  | Bang
  | BangEqual
  | Equal
  | EqualEqual
  | Greater
  | GreaterEqual
  | Less
  | LessEqual
  | Identifier
  | String
  | Number
  | And
  | Class
  | Else
  | False
  | Fun
  | For
  | If
  | Print
  | Return
  | Or
  | Nil
  | Super
  | This
  | True
  | Var
  | While
  | Eof
  deriving DecidableEq, Repr

/-- src/src/token.rs lines 49-58 (`Token`). -/
structure Token where
  lexeme : String
  kind : TokenKind
  line : Nat
  column : Nat
  length : Nat
  offset : Nat
  deriving DecidableEq, Repr

/-- src/src/token.rs lines 60-72 (`Token::new`), as invoked by the scanner.
The constructor in token.rs takes a fifth `offset` argument and computes
`length`, but every call site in src/src/lexer/scanner.rs passes only four
arguments (the crate as committed does not type-check); the embedding follows
the call sites and models the unsupplied `offset` as `0`. -/
def Token.new (lexeme : String) (kind : TokenKind) (line column : Nat) : Token :=
  { lexeme := lexeme, kind := kind, line := line, column := column,
    length := lexeme.length, offset := 0 }

/-- src/src/parser/value.rs lines 4-10 (`Value`); `Number` holds the `f64`
modelled as `ℚ`. -/
inductive Value where
  | Number (n : ℚ)
  | String (s : String)
  | Bool (b : Bool)
  | Nil
  deriving DecidableEq, Repr

/-- src/src/parser/value.rs lines 13-18 (`Value::is_truthy`; declared here
outside the `Value` namespace so that the `Bool` result type does not resolve
to the `Value.Bool` constructor). -/
def is_truthy : Value → Bool
  | Value.Bool b => b
  | _ => true

/-- src/src/parser/value.rs lines 20-27 (`Value::type_name`). -/
def type_name : Value → String
  | Value.Number _ => "number"
  | Value.String _ => "string"
  | Value.Bool _ => "boolean"
  | Value.Nil => "nil"

/-- src/src/parser/value.rs lines 30-44 (`Value::binary_number_operation`). -/
def binary_number_operation (left right : Value) (op : ℚ → ℚ → ℚ)
    (position : Position) : Except Error Value :=
  match left, right with
  | Value.Number l, Value.Number r => Except.ok (Value.Number (op l r))
  | _, _ =>
      Except.error (Error.invalid_operand_types "Operands must be numbers."
        (type_name left) (type_name right) position)

/-- src/src/parser/expr.rs lines 36-42 (`Literal`); `Number` holds the `f64`
modelled as `ℚ`. -/
inductive Literal where
  | Number (n : ℚ)
  | String (s : String)
  | Bool (b : Bool)
  | Nil
  deriving DecidableEq, Repr

/-- src/src/parser/expr.rs lines 15-35 (`Expr`). -/
inductive Expr where
  | Literal (lit : Literal)
  | Binary (left : Expr) (operator : Token) (right : Expr)
  | Grouping (expr : Expr)
  | Unary (operator : Token) (right : Expr)
  | Ternary (condition : Expr) (then_expr : Expr) (else_expr : Expr)
  deriving DecidableEq, Repr

/-- src/src/parser/expr.rs lines 52-146 (`Expr::evaluate` and its helpers
`evaluate_literal`, `evaluate_unary`, `evaluate_binary`, `evaluate_ternary`).
The four helpers of the source immediately re-invoke `evaluate` on the child
expressions, so they are inlined here into the single structural recursion;
each branch is a verbatim transcription of the corresponding helper.  Note the
`Star` arm (expr.rs line 118): the source passes the closure `|a, b| a + b`,
i.e. addition, to `binary_number_operation`. -/
def evaluate : Expr → Except Error Value
  | Expr.Literal lit =>
      -- evaluate_literal, expr.rs lines 70-77
      Except.ok (match lit with
        | Literal.Number n => Value.Number n
        | Literal.String s => Value.String s
        | Literal.Bool b => Value.Bool b
        | Literal.Nil => Value.Nil)
  | Expr.Grouping e => evaluate e
  | Expr.Unary operator right =>
      -- evaluate_unary, expr.rs lines 79-95
      match evaluate right with
      | Except.error e => Except.error e
      | Except.ok right_val =>
        match operator.kind with
        | TokenKind.Minus =>
            match right_val with
            | Value.Number n => Except.ok (Value.Number (-n))
            | _ => Except.error (Error.runtime "Operand must be a number."
                    (Position.new operator.line operator.column operator.offset))
        | TokenKind.Bang => Except.ok (Value.Bool (!(is_truthy right_val)))
        | _ => Except.error (Error.runtime "Invalid unary operator."
                (Position.new operator.line operator.column operator.offset))
  | Expr.Binary left operator right =>
      -- evaluate_binary, expr.rs lines 97-132
      match evaluate left with
      | Except.error e => Except.error e
      | Except.ok left_val =>
        match evaluate right with
        | Except.error e => Except.error e
        | Except.ok right_val =>
          match operator.kind with
          | TokenKind.Plus =>
              match left_val, right_val with
              | Value.Number a, Value.Number b => Except.ok (Value.Number (a + b))
              | Value.String a, Value.String b => Except.ok (Value.String (a ++ b))
              | _, _ => Except.error (Error.runtime
                  "Operands must be two numbers or two strings"
                  (Position.new operator.line operator.column operator.offset))
          | TokenKind.Minus =>
              binary_number_operation left_val right_val (fun a b => a - b)
                (Position.new operator.line operator.column operator.offset)
          | TokenKind.Star =>
              -- expr.rs line 118: the closure is `|a, b| a + b`
              binary_number_operation left_val right_val (fun a b => a + b)
                (Position.new operator.line operator.column operator.offset)
          | TokenKind.Slash =>
              binary_number_operation left_val right_val (fun a b => a / b)
                (Position.new operator.line operator.column operator.offset)
          | _ => Except.error (Error.runtime "Invalid binary operator"
                  (Position.new operator.line operator.column operator.offset))
  | Expr.Ternary condition then_expr else_expr =>
      -- evaluate_ternary, expr.rs lines 134-146
      match evaluate condition with
      | Except.error e => Except.error e
      | Except.ok condition_val =>
        if is_truthy condition_val then
          match evaluate then_expr with
          | Except.error e => Except.error e
          | Except.ok v => Except.ok v
        else
          match evaluate else_expr with
          | Except.error e => Except.error e
          | Except.ok v => Except.ok v

/-- src/src/lexer/scanner.rs lines 7-27: the `lazy_static!` keyword table,
modelled as an association list (note: the source inserts 15 keywords; `this`
is absent from the table). -/
def KEYWORDS : List (String × TokenKind) :=
  [("and", TokenKind.And), ("class", TokenKind.Class), ("else", TokenKind.Else),
   ("false", TokenKind.False), ("for", TokenKind.For), ("fun", TokenKind.Fun),
   ("if", TokenKind.If), ("nil", TokenKind.Nil), ("or", TokenKind.Or),
   ("print", TokenKind.Print), ("return", TokenKind.Return),
   ("super", TokenKind.Super), ("true", TokenKind.True),
   ("var", TokenKind.Var), ("while", TokenKind.While)]

/-- src/src/lexer/scanner.rs lines 28-35 (`Scanner`), with the source string
as a character list. -/
structure Scanner where
  source : List Char
  tokens : List Token
  start : Nat
  current : Nat
  line : Nat
  column : Nat
  deriving DecidableEq, Repr

/-- src/src/lexer/scanner.rs lines 38-47 (`Scanner::new`). -/
def Scanner.new (source : List Char) (tokens : List Token) (column : Nat) : Scanner :=
  { source := source, tokens := tokens, start := 0, current := 0,
    line := 1, column := column }

/-- src/src/lexer/scanner.rs lines 49-51 (`is_at_the_end`):
`current >= source.len()`. -/
def is_at_the_end (s : Scanner) : Bool := s.source.length ≤ s.current

/-- src/src/lexer/scanner.rs lines 160-165 (`peek`).  The end-of-input guard
of the source is the statement `'\0';`, whose value is discarded — it is not a
`return`.  The method therefore always evaluates
`self.source[self.current..].chars().next().unwrap()`, which panics at end of
input instead of yielding `'\0'`. -/
def Scanner.peek (s : Scanner) : Res Error Char :=
  match (s.source.drop s.current).head? with
  | some c => Res.ok c
  | none => Res.panic

/-- src/src/lexer/scanner.rs lines 152-157 (`peek_next`): this guard does
`return '\0'`, so the method is total. -/
def peek_next (s : Scanner) : Char :=
  if s.source.length ≤ s.current + 1 then '\x00'
  else (s.source.drop (s.current + 1)).headD '\x00'

/-- src/src/lexer/scanner.rs lines 144-149 (`advance`): unwraps the first
character of `source[current..]` (panicking at end of input) and increments
`current`. -/
def Scanner.advance (s : Scanner) : Res Error (Char × Scanner) :=
  match (s.source.drop s.current).head? with
  | some c => Res.ok (c, { s with current := s.current + 1 })
  | none => Res.panic

/-- src/src/lexer/scanner.rs lines 168-174 (`peek_match`).  The comparison
`if self.is_at_the_end() || self.peek() != next { false; }` is a discarded
statement, not a return: its boolean is dropped, after which the method
unconditionally increments `current` and returns `true`.  (When not at end the
dropped condition does call `peek`, which succeeds because `current` is in
range; the `||` short-circuit protects the at-end case, so no panic arises.)
The `next` argument only feeds the dropped comparison. -/
def peek_match (s : Scanner) (next : Char) : Bool × Scanner :=
  let _dropped := is_at_the_end s || (s.source.drop s.current).headD next != next
  (true, { s with current := s.current + 1 })

/-- src/src/lexer/scanner.rs lines 72-79 (`add_token`): with `None` the lexeme
is the slice `source[start..current]`, which panics when `start > current` or
`current > source.len()`. -/
def add_token (s : Scanner) (kind : TokenKind) (value : Option String) : Res Error Scanner :=
  match value with
  | some v =>
      Res.ok { s with tokens := s.tokens ++ [Token.new v kind s.line s.column] }
  | none =>
      if s.start ≤ s.current ∧ s.current ≤ s.source.length then
        Res.ok { s with tokens := s.tokens ++
          [Token.new (String.mk ((s.source.drop s.start).take (s.current - s.start)))
            kind s.line s.column] }
      else Res.panic

/-- src/src/lexer/scanner.rs lines 86-94, the comment loop of the `/` arm:
`while self.peek() != '\n' && !self.is_at_the_end() { self.advance(); }`.
`peek` is evaluated first, so a comment that runs to end of input panics.
Fuel-indexed; each iteration advances `current`. -/
def comment_loop : Nat → Scanner → Res Error Scanner
  | 0, _ => Res.panic
  | fuel + 1, s =>
      match (s.source.drop s.current).head? with
      | none => Res.panic
      | some c =>
          if c = '\n' then Res.ok s
          else comment_loop fuel { s with current := s.current + 1 }

/-- src/src/lexer/scanner.rs lines 195-200, the scan loop of
`handle_string_literal`: `while self.peek() != '"' && !self.is_at_the_end()`,
with a line-counter bump on embedded newlines.  `peek` is evaluated first, so
an unterminated string panics inside this loop at end of input. -/
def string_loop : Nat → Scanner → Res Error Scanner
  | 0, _ => Res.panic
  | fuel + 1, s =>
      match (s.source.drop s.current).head? with
      | none => Res.panic
      | some c =>
          if c = '\"' then Res.ok s
          else if c = '\n' then
            string_loop fuel { s with line := s.line + 1, current := s.current + 1 }
          else string_loop fuel { s with current := s.current + 1 }

/-- src/src/lexer/scanner.rs lines 194-214 (`handle_string_literal`).  After
the loop, `if self.is_at_the_end() { Error::new(...); }` constructs the
"Unterminated string literal" error and discards it (no `return`; the branch
is in fact unreachable, since the loop only exits normally on a closing
quote).  The method then consumes the closing quote and takes the slice
`source[(start + 1)..(current + 1)]`, which panics when `current + 1`
exceeds the input length. -/
def handle_string_literal (s : Scanner) : Res Error Scanner :=
  match string_loop (s.source.length + 1) s with
  | Res.panic => Res.panic
  | Res.err e => Res.err e
  | Res.ok s1 =>
      match s1.advance with
      | Res.panic => Res.panic
      | Res.err e => Res.err e
      | Res.ok (_, s2) =>
          if s2.current + 1 ≤ s2.source.length then
            add_token s2 TokenKind.String
              (some (String.mk ((s2.source.drop (s2.start + 1)).take
                ((s2.current + 1) - (s2.start + 1)))))
          else Res.panic

/-- Modelled from the Rust standard library: `str::parse::<f64>()` restricted
to the unsigned decimal forms `digits`, `digits "." digits*` and
`"." digits+` that this repository's scanner and parser feed it; any other
string maps to `none` (on which the callers `unwrap()`, i.e. panic).  The
value is represented exactly as a rational; f64 rounding of long digit strings
is not modelled — every theorem below involves only short literals whose f64
representation is exact. -/
def parse_f64 (str : String) : Option ℚ :=
  match str.splitOn "." with
  | [intp] =>
      if !intp.data.isEmpty && intp.data.all Char.isDigit then
        some ((intp.data.foldl (fun acc c => 10 * acc + (c.toNat - '0'.toNat)) 0 : Nat) : ℚ)
      else none
  | [intp, fracp] =>
      if (!intp.data.isEmpty || !fracp.data.isEmpty)
          && intp.data.all Char.isDigit && fracp.data.all Char.isDigit then
        some (((intp.data.foldl (fun acc c => 10 * acc + (c.toNat - '0'.toNat)) 0 : Nat) : ℚ)
          + ((fracp.data.foldl (fun acc c => 10 * acc + (c.toNat - '0'.toNat)) 0 : Nat) : ℚ)
            / ((10 : ℚ) ^ fracp.length))
      else none
  | _ => none

/-- Modelled from the Rust standard library: `f64::to_string` of the value
`parse::<f64>` produced from the scanned lexeme (scanner.rs lines 185-190),
restricted to the same unsigned decimal forms as `parse_f64`.  The canonical
rendering drops leading integer zeros, trailing fractional zeros and an empty
fractional part, matching Rust's display of such values. -/
def f64_roundtrip (str : String) : Option String :=
  match str.splitOn "." with
  | [intp] =>
      if !intp.data.isEmpty && intp.data.all Char.isDigit then
        some (String.mk (match intp.data.dropWhile (· = '0') with
          | [] => ['0']
          | r => r))
      else none
  | [intp, fracp] =>
      if (!intp.data.isEmpty || !fracp.data.isEmpty)
          && intp.data.all Char.isDigit && fracp.data.all Char.isDigit then
        let ip : List Char := match intp.data.dropWhile (· = '0') with
          | [] => ['0']
          | r => r
        let fr : List Char := (fracp.data.reverse.dropWhile (· = '0')).reverse
        if fr.isEmpty then some (String.mk ip)
        else some (String.mk ip ++ "." ++ String.mk fr)
      else none
  | _ => none

/-- src/src/lexer/scanner.rs lines 177-180, the digit loop of
`handle_number_literal`: `while self.peek().is_ascii_digit() &&
!self.is_at_the_end()`.  `peek` is evaluated first, so a digit run that
reaches end of input panics. -/
def number_loop : Nat → Scanner → Res Error Scanner
  | 0, _ => Res.panic
  | fuel + 1, s =>
      match (s.source.drop s.current).head? with
      | none => Res.panic
      | some c =>
          if c.isDigit then number_loop fuel { s with current := s.current + 1 }
          else Res.ok s

/-- src/src/lexer/scanner.rs lines 177-191 (`handle_number_literal`).  After
the digit loop, the decimal-part check `if self.peek() == '.' &&
self.peek_next().is_ascii_digit()` consumes the dot with a single `advance()`
(the digits after the dot are not consumed by this method).  The lexeme
`source[start..current]` is then parsed as `f64` with `unwrap()` (panicking on
a non-numeric lexeme) and the token is added with the `to_string` rendering of
that value. -/
def handle_number_literal (s : Scanner) : Res Error Scanner :=
  match number_loop (s.source.length + 1) s with
  | Res.panic => Res.panic
  | Res.err e => Res.err e
  | Res.ok s1 =>
      -- after the loop `current` is in range, so this `peek` cannot panic
      let s2 : Scanner :=
        if (s1.source.drop s1.current).headD '\x00' = '.' ∧ (peek_next s1).isDigit then
          { s1 with current := s1.current + 1 }
        else s1
      match f64_roundtrip (String.mk ((s2.source.drop s2.start).take (s2.current - s2.start))) with
      | some value => add_token s2 TokenKind.Number (some value)
      | none => Res.panic

/-- src/src/lexer/scanner.rs lines 217-220, the loop of `handle_identifier`:
`while self.peek().is_alphanumeric() && !self.is_at_the_end()`.  `peek` is
evaluated first, so a run reaching end of input panics.  The char method is
Rust's Unicode `char::is_alphanumeric` (not the unused static helper including
`_`); on ASCII it coincides with `Char.isAlphanum`. -/
def identifier_loop : Nat → Scanner → Res Error Scanner
  | 0, _ => Res.panic
  | fuel + 1, s =>
      match (s.source.drop s.current).head? with
      | none => Res.panic
      | some c =>
          if c.isAlphanum then identifier_loop fuel { s with current := s.current + 1 }
          else Res.ok s

/-- src/src/lexer/scanner.rs lines 217-226 (`handle_identifier`): the matched
slice is trimmed and looked up in the keyword table (`HashMap::get`, modelled
by association-list lookup), defaulting to `Identifier`. -/
def handle_identifier (s : Scanner) : Res Error Scanner :=
  match identifier_loop (s.source.length + 1) s with
  | Res.panic => Res.panic
  | Res.err e => Res.err e
  | Res.ok s1 =>
      let text := (String.mk ((s1.source.drop s1.start).take (s1.current - s1.start))).trim
      let token_kind := (KEYWORDS.lookup text).getD TokenKind.Identifier
      add_token s1 token_kind none

/-- src/src/lexer/scanner.rs lines 81-142 (`scan_token`), split on the
character returned by the leading `advance`.  Branch notes:
* `/` (lines 86-94): `peek_match` always answers `true`, so every `/` starts
  a comment; the `Slash` arm is dead.
* `!` `>` `<` `=` (lines 101-116): `peek_match` always answers `true`, so the
  combined two-character token is always emitted.
* `o` (lines 122-126): `peek_match('r')` always answers `true`, so every `o`
  emits an `Or` token.
* default (lines 127-139): the scrutinee is `self.peek()` — the character
  after the consumed one, panicking at end of input — and the
  "Unexpected character." `Error::new` (with `line`/`column` arguments where a
  `Position` is expected; the repository does not type-check here) is
  constructed and discarded, after which `Ok(())` is returned. -/
def scan_char (c : Char) (s : Scanner) : Res Error Scanner :=
  match c with
  | '+' => add_token s TokenKind.Plus none
  | '-' => add_token s TokenKind.Minus none
  | '*' => add_token s TokenKind.Star none
  | '/' =>
    (match peek_match s '/' with
    | (true, s1) => comment_loop (s1.source.length + 1) s1
    | (false, s1) => add_token s1 TokenKind.Slash none)
  | '(' => add_token s TokenKind.LeftParen none
  | ')' => add_token s TokenKind.RightParen none
  | '{' => add_token s TokenKind.LeftBrace none
  | '}' => add_token s TokenKind.RightBrace none
  | ',' => add_token s TokenKind.Comma none
  | '.' => add_token s TokenKind.Dot none
  | '!' =>
    (match peek_match s '=' with
    | (true, s1) => add_token s1 TokenKind.BangEqual none
    | (false, s1) => add_token s1 TokenKind.Bang none)
  | '>' =>
    (match peek_match s '=' with
    | (true, s1) => add_token s1 TokenKind.GreaterEqual none
    | (false, s1) => add_token s1 TokenKind.Greater none)
  | '<' =>
    (match peek_match s '=' with
    | (true, s1) => add_token s1 TokenKind.LessEqual none
    | (false, s1) => add_token s1 TokenKind.Less none)
  | '=' =>
    (match peek_match s '=' with
    | (true, s1) => add_token s1 TokenKind.EqualEqual none
    | (false, s1) => add_token s1 TokenKind.Equal none)
  | ' ' => Res.ok s
  | '\r' => Res.ok s
  | '\t' => Res.ok s
  | '\n' => Res.ok { s with line := s.line + 1 }
  | '\"' => handle_string_literal s
  | 'o' =>
    (match peek_match s 'r' with
    | (true, s1) => add_token s1 TokenKind.Or none
    | (false, s1) => Res.ok s1)
  | _ =>
    (match s.peek with
    | Res.panic => Res.panic
    | Res.err e => Res.err e
    | Res.ok c1 =>
        if c1.isDigit then handle_number_literal s
        else if c1.isAlpha then handle_identifier s
        else Res.ok s)

/-- src/src/lexer/scanner.rs lines 81-142 (`scan_token`): consume one
character with `advance`, then dispatch on it. -/
def scan_token (s : Scanner) : Res Error Scanner :=
  match s.advance with
  | Res.panic => Res.panic
  | Res.err e => Res.err e
  | Res.ok (c, s1) => scan_char c s1

/-- src/src/lexer/scanner.rs lines 54-70 (`get_tokens`): while not at the
end, set `start := current` and scan one token, propagating the first error;
then push the single `Eof` token and return the accumulated vector.
Fuel-indexed; each successful `scan_token` consumes at least one character. -/
def get_tokens : Nat → Scanner → Res Error (List Token)
  | 0, _ => Res.panic
  | fuel + 1, s =>
      if is_at_the_end s then
        Res.ok (s.tokens ++ [Token.new "" TokenKind.Eof s.line s.column])
      else
        match scan_token { s with start := s.current } with
        | Res.panic => Res.panic
        | Res.err e => Res.err e
        | Res.ok s' => get_tokens fuel s'

/-- The spec contract `scan(source) -> Result<Vec<Token>, Error>` (spec §4.1):
no caller in src/ instantiates `Scanner`, so per the contract the scanner is
constructed on the bare source text with an empty token accumulator (and
initial column 1, the only positive column consistent with the 1-based
`column` of the data model). -/
def scan (source : String) : Res Error (List Token) :=
  get_tokens (source.data.length + 1) (Scanner.new source.data [] 1)

/-- src/src/parser/parser.rs lines 7-11 (`Parser`). -/
structure Parser where
  tokens : List Token
  current : Nat
  deriving DecidableEq, Repr

/-- src/src/parser/parser.rs lines 13-15 (`Parser::new`). -/
def Parser.new (tokens : List Token) : Parser := { tokens := tokens, current := 0 }

/-- src/src/parser/parser.rs lines 203-206 (`Parser::peek`):
`&self.tokens[self.current]`, panicking when `current` is out of range. -/
def peekP (p : Parser) : Res String Token :=
  match (p.tokens.drop p.current).head? with
  | some t => Res.ok t
  | none => Res.panic

/-- src/src/parser/parser.rs lines 208-211 (`previous`):
`self.tokens[self.current - 1]`, panicking when `current = 0` (usize
underflow) or when the index is out of range. -/
def previous (p : Parser) : Res String Token :=
  if p.current = 0 then Res.panic
  else
    match (p.tokens.drop (p.current - 1)).head? with
    | some t => Res.ok t
    | none => Res.panic

/-- src/src/parser/parser.rs lines 198-201 (`is_at_end`):
`self.peek().kind == TokenKind::Eof` (so it panics with `peek` when `current`
is out of range). -/
def is_at_end (p : Parser) : Res String Bool :=
  match peekP p with
  | Res.panic => Res.panic
  | Res.err e => Res.err e
  | Res.ok t => Res.ok (t.kind = TokenKind.Eof)

/-- src/src/parser/parser.rs lines 185-188 (`check`):
`!self.is_at_end() && self.peek().kind == kind`. -/
def check (p : Parser) (kind : TokenKind) : Res String Bool :=
  match is_at_end p with
  | Res.panic => Res.panic
  | Res.err e => Res.err e
  | Res.ok true => Res.ok false
  | Res.ok false =>
      match peekP p with
      | Res.panic => Res.panic
      | Res.err e => Res.err e
      | Res.ok t => Res.ok (t.kind = kind)

/-- src/src/parser/parser.rs lines 190-196 (`Parser::advance`): bump `current`
unless at end, then return `previous()`. -/
def advanceP (p : Parser) : Res String (Token × Parser) :=
  match is_at_end p with
  | Res.panic => Res.panic
  | Res.err e => Res.err e
  | Res.ok at_end =>
      let p' := if at_end then p else { p with current := p.current + 1 }
      match previous p' with
      | Res.panic => Res.panic
      | Res.err e => Res.err e
      | Res.ok t => Res.ok (t, p')

/-- src/src/parser/parser.rs lines 174-183 (`match_token`): first kind whose
`check` answers true is consumed with `advance` (whose returned token is
dropped), answering `true`; otherwise `false` with the state unchanged. -/
def match_token (p : Parser) : List TokenKind → Res String (Bool × Parser)
  | [] => Res.ok (false, p)
  | kind :: rest =>
      match check p kind with
      | Res.panic => Res.panic
      | Res.err e => Res.err e
      | Res.ok true =>
          match advanceP p with
          | Res.panic => Res.panic
          | Res.err e => Res.err e
          | Res.ok (_, p') => Res.ok (true, p')
      | Res.ok false => match_token p rest

/-- src/src/parser/parser.rs lines 213-224 (`consume`): on a `check` match,
advance and return the token; otherwise build a `Parse` error at the offending
token's position.  The `Result<Token, Error>` of the source is the inner
`Except`; the outer `Res` carries only panics of `check`/`advance`/`peek`. -/
def consume (p : Parser) (kind : TokenKind) (message : String) :
    Res String (Except Error (Token × Parser)) :=
  match check p kind with
  | Res.panic => Res.panic
  | Res.err e => Res.err e
  | Res.ok true =>
      match advanceP p with
      | Res.panic => Res.panic
      | Res.err e => Res.err e
      | Res.ok (t, p') => Res.ok (Except.ok (t, p'))
  | Res.ok false =>
      match peekP p with
      | Res.panic => Res.panic
      | Res.err e => Res.err e
      | Res.ok err_token =>
          Res.ok (Except.error (Error.parse message
            (Position.new err_token.line err_token.column err_token.offset)))

mutual

/-- src/src/parser/parser.rs lines 20-22 (`expression`): delegates directly to
`equality`, bypassing the `comma` and `ternary` levels. -/
def expression : Nat → Parser → Res String (Expr × Parser)
  | 0, _ => Res.panic
  | fuel + 1, p => equality fuel p

/-- src/src/parser/parser.rs lines 23-36 (`comma`): parses a ternary, then an
`if` (not a loop) folding one optional comma.  Unreachable from `parse` in the
source; embedded for completeness. -/
def comma : Nat → Parser → Res String (Expr × Parser)
  | 0, _ => Res.panic
  | fuel + 1, p =>
      match ternary fuel p with
      | Res.panic => Res.panic
      | Res.err e => Res.err e
      | Res.ok (expr, p1) =>
          match match_token p1 [TokenKind.Comma] with
          | Res.panic => Res.panic
          | Res.err e => Res.err e
          | Res.ok (false, p2) => Res.ok (expr, p2)
          | Res.ok (true, p2) =>
              match previous p2 with
              | Res.panic => Res.panic
              | Res.err e => Res.err e
              | Res.ok operator =>
                  match ternary fuel p2 with
                  | Res.panic => Res.panic
                  | Res.err e => Res.err e
                  | Res.ok (right, p3) =>
                      Res.ok (Expr.Binary expr operator right, p3)

/-- src/src/parser/parser.rs lines 38-57 (`ternary`): condition at the
`equality` level; on `?`, a full `expression` as the then-branch, a required
`:`, and a right-recursive `ternary` as the else-branch. -/
def ternary : Nat → Parser → Res String (Expr × Parser)
  | 0, _ => Res.panic
  | fuel + 1, p =>
      match equality fuel p with
      | Res.panic => Res.panic
      | Res.err e => Res.err e
      | Res.ok (expr, p1) =>
          match match_token p1 [TokenKind.Question] with
          | Res.panic => Res.panic
          | Res.err e => Res.err e
          | Res.ok (false, p2) => Res.ok (expr, p2)
          | Res.ok (true, p2) =>
              match expression fuel p2 with
              | Res.panic => Res.panic
              | Res.err e => Res.err e
              | Res.ok (then_expr, p3) =>
                  match match_token p3 [TokenKind.Colon] with
                  | Res.panic => Res.panic
                  | Res.err e => Res.err e
                  | Res.ok (false, _) =>
                      Res.err "Expected ':' after then expression in ternary operator"
                  | Res.ok (true, p4) =>
                      match ternary fuel p4 with
                      | Res.panic => Res.panic
                      | Res.err e => Res.err e
                      | Res.ok (else_expr, p5) =>
                          Res.ok (Expr.Ternary expr then_expr else_expr, p5)

/-- src/src/parser/parser.rs lines 59-72 (`equality`): left fold over the
operator set `[BangEqual, Equal]` (note: `Equal`, not `EqualEqual`). -/
def equality : Nat → Parser → Res String (Expr × Parser)
  | 0, _ => Res.panic
  | fuel + 1, p =>
      match comparison fuel p with
      | Res.panic => Res.panic
      | Res.err e => Res.err e
      | Res.ok (expr, p1) => equality_loop fuel expr p1

/-- The `while` loop of `equality` (parser.rs lines 62-70). -/
def equality_loop : Nat → Expr → Parser → Res String (Expr × Parser)
  | 0, _, _ => Res.panic
  | fuel + 1, expr, p =>
      match match_token p [TokenKind.BangEqual, TokenKind.Equal] with
      | Res.panic => Res.panic
      | Res.err e => Res.err e
      | Res.ok (false, p1) => Res.ok (expr, p1)
      | Res.ok (true, p1) =>
          match previous p1 with
          | Res.panic => Res.panic
          | Res.err e => Res.err e
          | Res.ok operator =>
              match comparison fuel p1 with
              | Res.panic => Res.panic
              | Res.err e => Res.err e
              | Res.ok (right, p2) =>
                  equality_loop fuel (Expr.Binary expr operator right) p2

/-- src/src/parser/parser.rs lines 73-91 (`comparison`): left fold over
`[Greater, GreaterEqual, Less, LessEqual]`. -/
def comparison : Nat → Parser → Res String (Expr × Parser)
  | 0, _ => Res.panic
  | fuel + 1, p =>
      match term fuel p with
      | Res.panic => Res.panic
      | Res.err e => Res.err e
      | Res.ok (expr, p1) => comparison_loop fuel expr p1

/-- The `while` loop of `comparison` (parser.rs lines 76-89). -/
def comparison_loop : Nat → Expr → Parser → Res String (Expr × Parser)
  | 0, _, _ => Res.panic
  | fuel + 1, expr, p =>
      match match_token p [TokenKind.Greater, TokenKind.GreaterEqual,
          TokenKind.Less, TokenKind.LessEqual] with
      | Res.panic => Res.panic
      | Res.err e => Res.err e
      | Res.ok (false, p1) => Res.ok (expr, p1)
      | Res.ok (true, p1) =>
          match previous p1 with
          | Res.panic => Res.panic
          | Res.err e => Res.err e
          | Res.ok operator =>
              match term fuel p1 with
              | Res.panic => Res.panic
              | Res.err e => Res.err e
              | Res.ok (right, p2) =>
                  comparison_loop fuel (Expr.Binary expr operator right) p2

/-- src/src/parser/parser.rs lines 93-106 (`term`): left fold over
`[Plus, Minus]`. -/
def term : Nat → Parser → Res String (Expr × Parser)
  | 0, _ => Res.panic
  | fuel + 1, p =>
      match factor fuel p with
      | Res.panic => Res.panic
      | Res.err e => Res.err e
      | Res.ok (expr, p1) => term_loop fuel expr p1

/-- The `while` loop of `term` (parser.rs lines 96-104). -/
def term_loop : Nat → Expr → Parser → Res String (Expr × Parser)
  | 0, _, _ => Res.panic
  | fuel + 1, expr, p =>
      match match_token p [TokenKind.Plus, TokenKind.Minus] with
      | Res.panic => Res.panic
      | Res.err e => Res.err e
      | Res.ok (false, p1) => Res.ok (expr, p1)
      | Res.ok (true, p1) =>
          match previous p1 with
          | Res.panic => Res.panic
          | Res.err e => Res.err e
          | Res.ok operator =>
              match factor fuel p1 with
              | Res.panic => Res.panic
              | Res.err e => Res.err e
              | Res.ok (right, p2) =>
                  term_loop fuel (Expr.Binary expr operator right) p2

/-- src/src/parser/parser.rs lines 108-121 (`factor`): left fold over
`[Slash, Star]`. -/
def factor : Nat → Parser → Res String (Expr × Parser)
  | 0, _ => Res.panic
  | fuel + 1, p =>
      match unary fuel p with
      | Res.panic => Res.panic
      | Res.err e => Res.err e
      | Res.ok (expr, p1) => factor_loop fuel expr p1

/-- The `while` loop of `factor` (parser.rs lines 111-119). -/
def factor_loop : Nat → Expr → Parser → Res String (Expr × Parser)
  | 0, _, _ => Res.panic
  | fuel + 1, expr, p =>
      match match_token p [TokenKind.Slash, TokenKind.Star] with
      | Res.panic => Res.panic
      | Res.err e => Res.err e
      | Res.ok (false, p1) => Res.ok (expr, p1)
      | Res.ok (true, p1) =>
          match previous p1 with
          | Res.panic => Res.panic
          | Res.err e => Res.err e
          | Res.ok operator =>
              match unary fuel p1 with
              | Res.panic => Res.panic
              | Res.err e => Res.err e
              | Res.ok (right, p2) =>
                  factor_loop fuel (Expr.Binary expr operator right) p2

/-- src/src/parser/parser.rs lines 123-134 (`unary`). -/
def unary : Nat → Parser → Res String (Expr × Parser)
  | 0, _ => Res.panic
  | fuel + 1, p =>
      match match_token p [TokenKind.Bang, TokenKind.Minus] with
      | Res.panic => Res.panic
      | Res.err e => Res.err e
      | Res.ok (true, p1) =>
          match previous p1 with
          | Res.panic => Res.panic
          | Res.err e => Res.err e
          | Res.ok operator =>
              match unary fuel p1 with
              | Res.panic => Res.panic
              | Res.err e => Res.err e
              | Res.ok (right, p2) => Res.ok (Expr.Unary operator right, p2)
      | Res.ok (false, p1) => primary fuel p1

/-- src/src/parser/parser.rs lines 136-172 (`primary`).  The `Number` arm
parses the token lexeme as `f64` with `unwrap()` (a panic on non-numeric
lexemes); the fall-through error message embeds the Rust `Debug` rendering of
the current token, abstracted here by `Repr` (no theorem below inspects that
text). -/
def primary : Nat → Parser → Res String (Expr × Parser)
  | 0, _ => Res.panic
  | fuel + 1, p =>
      match match_token p [TokenKind.False] with
      | Res.panic => Res.panic
      | Res.err e => Res.err e
      | Res.ok (true, p1) => Res.ok (Expr.Literal (Literal.Bool false), p1)
      | Res.ok (false, p1) =>
      match match_token p1 [TokenKind.True] with
      | Res.panic => Res.panic
      | Res.err e => Res.err e
      | Res.ok (true, p2) => Res.ok (Expr.Literal (Literal.Bool true), p2)
      | Res.ok (false, p2) =>
      match match_token p2 [TokenKind.Nil] with
      | Res.panic => Res.panic
      | Res.err e => Res.err e
      | Res.ok (true, p3) => Res.ok (Expr.Literal Literal.Nil, p3)
      | Res.ok (false, p3) =>
      match match_token p3 [TokenKind.Number] with
      | Res.panic => Res.panic
      | Res.err e => Res.err e
      | Res.ok (true, p4) =>
          (match previous p4 with
          | Res.panic => Res.panic
          | Res.err e => Res.err e
          | Res.ok t =>
              match parse_f64 t.lexeme with
              | some n => Res.ok (Expr.Literal (Literal.Number n), p4)
              | none => Res.panic)
      | Res.ok (false, p4) =>
      match match_token p4 [TokenKind.String] with
      | Res.panic => Res.panic
      | Res.err e => Res.err e
      | Res.ok (true, p5) =>
          (match previous p5 with
          | Res.panic => Res.panic
          | Res.err e => Res.err e
          | Res.ok t => Res.ok (Expr.Literal (Literal.String t.lexeme), p5))
      | Res.ok (false, p5) =>
      match match_token p5 [TokenKind.LeftParen] with
      | Res.panic => Res.panic
      | Res.err e => Res.err e
      | Res.ok (true, p6) =>
          (match expression fuel p6 with
          | Res.panic => Res.panic
          | Res.err e => Res.err e
          | Res.ok (expr, p7) =>
              match consume p7 TokenKind.RightParen "Expected ')' after expression." with
              | Res.panic => Res.panic
              | Res.err e => Res.err e
              | Res.ok (Except.ok (_token, p8)) => Res.ok (Expr.Grouping expr, p8)
              | Res.ok (Except.error error) => Res.err error.message)
      | Res.ok (false, p6) =>
      match peekP p6 with
      | Res.panic => Res.panic
      | Res.err e => Res.err e
      | Res.ok t => Res.err ("Unexpected token: " ++ toString (repr t))

end

/-- src/src/parser/parser.rs lines 17-19 (`parse`): delegates to
`expression`.  The fuel bounds the recursion depth of the descent; it is
generous for every input evaluated below (the descent consumes fuel only on
the fixed seven-level ladder and on explicit nesting tokens). -/
def parse (tokens : List Token) : Res String Expr :=
  match expression ((tokens.length + 1) * 8) (Parser.new tokens) with
  | Res.panic => Res.panic
  | Res.err e => Res.err e
  | Res.ok (expr, _) => Res.ok expr




lemma add_token_shape {s : Scanner} {k : TokenKind} {v : Option String} {s2 : Scanner}
    (h : add_token s k v = Res.ok s2) :
    ∃ lex, s2.tokens = s.tokens ++ [Token.new lex k s.line s.column] := by
  cases v with
  | some v =>
      simp only [add_token] at h
      refine ⟨v, ?_⟩
      injection h with h
      rw [← h]
  | none =>
      simp only [add_token] at h
      split at h
      · refine ⟨String.mk ((s.source.drop s.start).take (s.current - s.start)), ?_⟩
        injection h with h
        rw [← h]
      · exact Res.noConfusion h

lemma comment_loop_tokens : ∀ (fuel : Nat) (s s2 : Scanner),
    comment_loop fuel s = Res.ok s2 → s2.tokens = s.tokens := by
  intro fuel
  induction fuel with
  | zero => intro s s2 h; exact Res.noConfusion h
  | succ n ih =>
      intro s s2 h
      rw [comment_loop] at h
      split at h
      · exact Res.noConfusion h
      · split at h
        · injection h with h; rw [← h]
        · have := ih _ s2 h
          exact this

lemma string_loop_tokens : ∀ (fuel : Nat) (s s2 : Scanner),
    string_loop fuel s = Res.ok s2 → s2.tokens = s.tokens := by
  intro fuel
  induction fuel with
  | zero => intro s s2 h; exact Res.noConfusion h
  | succ n ih =>
      intro s s2 h
      rw [string_loop] at h
      split at h
      · exact Res.noConfusion h
      · split at h
        · injection h with h; rw [← h]
        · split at h
          · have := ih _ s2 h
            exact this
          · have := ih _ s2 h
            exact this

lemma number_loop_tokens : ∀ (fuel : Nat) (s s2 : Scanner),
    number_loop fuel s = Res.ok s2 → s2.tokens = s.tokens := by
  intro fuel
  induction fuel with
  | zero => intro s s2 h; exact Res.noConfusion h
  | succ n ih =>
      intro s s2 h
      rw [number_loop] at h
      split at h
      · exact Res.noConfusion h
      · split at h
        · have := ih _ s2 h
          exact this
        · injection h with h; rw [← h]

lemma identifier_loop_tokens : ∀ (fuel : Nat) (s s2 : Scanner),
    identifier_loop fuel s = Res.ok s2 → s2.tokens = s.tokens := by
  intro fuel
  induction fuel with
  | zero => intro s s2 h; exact Res.noConfusion h
  | succ n ih =>
      intro s s2 h
      rw [identifier_loop] at h
      split at h
      · exact Res.noConfusion h
      · split at h
        · have := ih _ s2 h
          exact this
        · injection h with h; rw [← h]

lemma advance_tokens {s : Scanner} {c : Char} {s2 : Scanner}
    (h : s.advance = Res.ok (c, s2)) : s2.tokens = s.tokens := by
  unfold Scanner.advance at h
  split at h
  · injection h with h
    injection h with h1 h2
    rw [← h2]
  · exact Res.noConfusion h

lemma handle_string_shape {s s2 : Scanner} (h : handle_string_literal s = Res.ok s2) :
    ∃ tok, s2.tokens = s.tokens ++ [tok] ∧ tok.kind = TokenKind.String := by
  unfold handle_string_literal at h
  cases hsl : string_loop (s.source.length + 1) s with
  | panic => rw [hsl] at h; exact Res.noConfusion h
  | err e => rw [hsl] at h; exact Res.noConfusion h
  | ok s1 =>
      rw [hsl] at h
      simp only at h
      cases hadv : s1.advance with
      | panic => rw [hadv] at h; exact Res.noConfusion h
      | err e => rw [hadv] at h; exact Res.noConfusion h
      | ok pr =>
          obtain ⟨c, sa⟩ := pr
          rw [hadv] at h
          simp only at h
          split at h
          · obtain ⟨lex, hl⟩ := add_token_shape h
            rw [advance_tokens hadv, string_loop_tokens _ _ _ hsl] at hl
            exact ⟨_, hl, rfl⟩
          · exact Res.noConfusion h

lemma handle_number_shape {s s2 : Scanner} (h : handle_number_literal s = Res.ok s2) :
    ∃ tok, s2.tokens = s.tokens ++ [tok] ∧ tok.kind = TokenKind.Number := by
  unfold handle_number_literal at h
  cases hnl : number_loop (s.source.length + 1) s with
  | panic => rw [hnl] at h; exact Res.noConfusion h
  | err e => rw [hnl] at h; exact Res.noConfusion h
  | ok s1 =>
      rw [hnl] at h
      simp only at h
      split at h
      · obtain ⟨lex, hl⟩ := add_token_shape h
        have hts : ∀ (P : Prop) [Decidable P],
            (if P then { s1 with current := s1.current + 1 } else s1).tokens = s1.tokens := by
          intro P hdec
          split <;> rfl
        rw [hts _, number_loop_tokens _ _ _ hnl] at hl
        exact ⟨_, hl, rfl⟩
      · exact Res.noConfusion h

lemma lookup_pair_mem {α β : Type} [BEq α] :
    ∀ (l : List (α × β)) (a : α) (b : β), l.lookup a = some b → ∃ p ∈ l, p.2 = b := by
  intro l
  induction l with
  | nil => intro a b h; simp [List.lookup] at h
  | cons hd tl ih =>
      intro a b h
      obtain ⟨k1, b1⟩ := hd
      rw [List.lookup] at h
      split at h
      · injection h with h
        exact ⟨(k1, b1), List.mem_cons_self _ _, h⟩
      · obtain ⟨p, hp, he⟩ := ih a b h
        exact ⟨p, List.mem_cons_of_mem _ hp, he⟩

lemma handle_identifier_shape {s s2 : Scanner} (h : handle_identifier s = Res.ok s2) :
    ∃ tok, s2.tokens = s.tokens ++ [tok] ∧ tok.kind ≠ TokenKind.Eof := by
  unfold handle_identifier at h
  cases hil : identifier_loop (s.source.length + 1) s with
  | panic => rw [hil] at h; exact Res.noConfusion h
  | err e => rw [hil] at h; exact Res.noConfusion h
  | ok s1 =>
      rw [hil] at h
      simp only at h
      obtain ⟨lex, hl⟩ := add_token_shape h
      rw [identifier_loop_tokens _ _ _ hil] at hl
      refine ⟨_, hl, ?_⟩
      show ((KEYWORDS.lookup ((String.mk ((s1.source.drop s1.start).take
          (s1.current - s1.start))).trim)).getD TokenKind.Identifier) ≠ TokenKind.Eof
      cases hlk : KEYWORDS.lookup ((String.mk ((s1.source.drop s1.start).take
          (s1.current - s1.start))).trim) with
      | none => simp
      | some k =>
          simp only [Option.getD_some]
          obtain ⟨p, hp, he⟩ := lookup_pair_mem _ _ _ hlk
          have hall : ∀ p ∈ KEYWORDS, p.2 ≠ TokenKind.Eof := by decide
          rw [← he]
          exact hall p hp


lemma scan_char_shape {c : Char} {s s2 : Scanner} (h : scan_char c s = Res.ok s2) :
    ∃ new, s2.tokens = s.tokens ++ new ∧ ∀ t ∈ new, t.kind ≠ TokenKind.Eof := by
  unfold scan_char at h
  split at h
  · obtain ⟨lex, hl⟩ := add_token_shape h
    exact ⟨_, hl, by intro t ht; rw [List.mem_singleton] at ht; subst ht; simp [Token.new]⟩
  · obtain ⟨lex, hl⟩ := add_token_shape h
    exact ⟨_, hl, by intro t ht; rw [List.mem_singleton] at ht; subst ht; simp [Token.new]⟩
  · obtain ⟨lex, hl⟩ := add_token_shape h
    exact ⟨_, hl, by intro t ht; rw [List.mem_singleton] at ht; subst ht; simp [Token.new]⟩
  · simp only [peek_match] at h
    have ht := comment_loop_tokens _ _ _ h
    exact ⟨[], by rw [List.append_nil]; exact ht, by simp⟩
  · obtain ⟨lex, hl⟩ := add_token_shape h
    exact ⟨_, hl, by intro t ht; rw [List.mem_singleton] at ht; subst ht; simp [Token.new]⟩
  · obtain ⟨lex, hl⟩ := add_token_shape h
    exact ⟨_, hl, by intro t ht; rw [List.mem_singleton] at ht; subst ht; simp [Token.new]⟩
  · obtain ⟨lex, hl⟩ := add_token_shape h
    exact ⟨_, hl, by intro t ht; rw [List.mem_singleton] at ht; subst ht; simp [Token.new]⟩
  · obtain ⟨lex, hl⟩ := add_token_shape h
    exact ⟨_, hl, by intro t ht; rw [List.mem_singleton] at ht; subst ht; simp [Token.new]⟩
  · obtain ⟨lex, hl⟩ := add_token_shape h
    exact ⟨_, hl, by intro t ht; rw [List.mem_singleton] at ht; subst ht; simp [Token.new]⟩
  · obtain ⟨lex, hl⟩ := add_token_shape h
    exact ⟨_, hl, by intro t ht; rw [List.mem_singleton] at ht; subst ht; simp [Token.new]⟩
  · simp only [peek_match] at h
    obtain ⟨lex, hl⟩ := add_token_shape h
    exact ⟨_, hl, by intro t ht; rw [List.mem_singleton] at ht; subst ht; simp [Token.new]⟩
  · simp only [peek_match] at h
    obtain ⟨lex, hl⟩ := add_token_shape h
    exact ⟨_, hl, by intro t ht; rw [List.mem_singleton] at ht; subst ht; simp [Token.new]⟩
  · simp only [peek_match] at h
    obtain ⟨lex, hl⟩ := add_token_shape h
    exact ⟨_, hl, by intro t ht; rw [List.mem_singleton] at ht; subst ht; simp [Token.new]⟩
  · simp only [peek_match] at h
    obtain ⟨lex, hl⟩ := add_token_shape h
    exact ⟨_, hl, by intro t ht; rw [List.mem_singleton] at ht; subst ht; simp [Token.new]⟩
  · injection h with h
    exact ⟨[], by rw [List.append_nil, ← h], by simp⟩
  · injection h with h
    exact ⟨[], by rw [List.append_nil, ← h], by simp⟩
  · injection h with h
    exact ⟨[], by rw [List.append_nil, ← h], by simp⟩
  · injection h with h
    exact ⟨[], by rw [List.append_nil, ← h], by simp⟩
  · obtain ⟨tok, hl, hk⟩ := handle_string_shape h
    exact ⟨[tok], hl, by intro t ht; rw [List.mem_singleton] at ht; subst ht; rw [hk]; simp⟩
  · simp only [peek_match] at h
    obtain ⟨lex, hl⟩ := add_token_shape h
    exact ⟨_, hl, by intro t ht; rw [List.mem_singleton] at ht; subst ht; simp [Token.new]⟩
  · split at h
    · exact Res.noConfusion h
    · exact Res.noConfusion h
    · split at h
      · obtain ⟨tok, hl, hk⟩ := handle_number_shape h
        exact ⟨[tok], hl, by intro t ht; rw [List.mem_singleton] at ht; subst ht; rw [hk]; simp⟩
      · split at h
        · obtain ⟨tok, hl, hk⟩ := handle_identifier_shape h
          exact ⟨[tok], hl, by intro t ht; rw [List.mem_singleton] at ht; subst ht; exact hk⟩
        · injection h with h
          exact ⟨[], by rw [List.append_nil, ← h], by simp⟩

lemma scan_token_shape {s s2 : Scanner} (h : scan_token s = Res.ok s2) :
    ∃ new, s2.tokens = s.tokens ++ new ∧ ∀ t ∈ new, t.kind ≠ TokenKind.Eof := by
  unfold scan_token at h
  cases hadv : s.advance with
  | panic => rw [hadv] at h; exact Res.noConfusion h
  | err e => rw [hadv] at h; exact Res.noConfusion h
  | ok pr =>
      obtain ⟨c, s1⟩ := pr
      rw [hadv] at h
      simp only at h
      obtain ⟨new, hl, hk⟩ := scan_char_shape h
      rw [advance_tokens hadv] at hl
      exact ⟨new, hl, hk⟩

lemma get_tokens_single_eof : ∀ (fuel : Nat) (s : Scanner) (ts : List Token),
    (∀ t ∈ s.tokens, t.kind ≠ TokenKind.Eof) → get_tokens fuel s = Res.ok ts →
    ∃ pre t, ts = pre ++ [t] ∧ t.kind = TokenKind.Eof ∧
      ∀ tok ∈ pre, tok.kind ≠ TokenKind.Eof := by
  intro fuel
  induction fuel with
  | zero => intro s ts _ h; exact Res.noConfusion h
  | succ n ih =>
      intro s ts hinv h
      rw [get_tokens] at h
      split at h
      · injection h with h
        exact ⟨s.tokens, Token.new "" TokenKind.Eof s.line s.column, h.symm, rfl, hinv⟩
      · cases hst : scan_token { s with start := s.current } with
        | panic => rw [hst] at h; exact Res.noConfusion h
        | err e => rw [hst] at h; exact Res.noConfusion h
        | ok s1 =>
            rw [hst] at h
            simp only at h
            obtain ⟨new, hl, hk⟩ := scan_token_shape hst
            refine ih s1 ts ?_ h
            intro t ht
            rw [hl] at ht
            rcases List.mem_append.mp ht with hmem | hmem
            · exact hinv t hmem
            · exact hk t hmem

/-- C7: for every source text on which `scan` succeeds, the returned token
sequence is a prefix of non-`Eof` tokens followed by exactly one final `Eof`
token: the last token has kind `Eof` and no other token in the sequence has
kind `Eof`. -/
theorem scan_single_eof (source : String) (ts : List Token) (h : scan source = Res.ok ts) :
    ∃ pre t, ts = pre ++ [t] ∧ t.kind = TokenKind.Eof ∧
      ∀ tok ∈ pre, tok.kind ≠ TokenKind.Eof := by
  unfold scan at h
  refine get_tokens_single_eof _ _ _ ?_ h
  intro t ht
  exact absurd ht (List.not_mem_nil t)

/-- Witness for C7 at the concrete input `"+"`, whose scan succeeds with
`[Plus, Eof]`. -/
theorem scan_single_eof_witness :
    ∃ pre t, [Token.new "+" TokenKind.Plus 1 1, Token.new "" TokenKind.Eof 1 1] = pre ++ [t] ∧
      t.kind = TokenKind.Eof ∧ ∀ tok ∈ pre, tok.kind ≠ TokenKind.Eof :=
  scan_single_eof "+" _ (by decide)

/-- C1 (code bug): evaluating a `Binary` node whose operator is `*` on
`Number 2` and `Number 3` returns `Number (2 + 3) = Number 5`, not the product
`Number (2 * 3) = Number 6` the claim states — expr.rs line 118 passes the
addition closure `|a, b| a + b` for `TokenKind::Star`. -/
theorem star_applies_addition :
    evaluate (Expr.Binary (Expr.Literal (Literal.Number 2))
        (Token.new "*" TokenKind.Star 1 1) (Expr.Literal (Literal.Number 3))) =
      Except.ok (Value.Number (2 + 3)) ∧
    evaluate (Expr.Binary (Expr.Literal (Literal.Number 2))
        (Token.new "*" TokenKind.Star 1 1) (Expr.Literal (Literal.Number 3))) ≠
      Except.ok (Value.Number (2 * 3)) := by
  refine ⟨rfl, ?_⟩
  intro h
  rw [show evaluate (Expr.Binary (Expr.Literal (Literal.Number 2))
        (Token.new "*" TokenKind.Star 1 1) (Expr.Literal (Literal.Number 3))) =
      Except.ok (Value.Number (2 + 3)) from rfl] at h
  simp only [Except.ok.injEq, Value.Number.injEq] at h
  norm_num at h

/-- The token sequence of the source text `true ? 1 : 2`, as the parser
contract receives it. -/
def ternary_tokens : List Token :=
  [Token.new "true" TokenKind.True 1 1, Token.new "?" TokenKind.Question 1 1,
   Token.new "1" TokenKind.Number 1 1, Token.new ":" TokenKind.Colon 1 1,
   Token.new "2" TokenKind.Number 1 1, Token.new "" TokenKind.Eof 1 1]

/-- C2 (code bug): on the token sequence of `true ? 1 : 2` the parser entry
point returns the bare `Literal (Bool true)` — `expression` delegates straight
to `equality` (parser.rs line 21), never reaching the `ternary` level — so no
`Ternary` node is produced and evaluation yields `Bool true`, not `Number 1`. -/
theorem parse_ternary_entry_bypasses_ternary :
    parse ternary_tokens = Res.ok (Expr.Literal (Literal.Bool true)) ∧
    evaluate (Expr.Literal (Literal.Bool true)) = Except.ok (Value.Bool true) :=
  ⟨rfl, rfl⟩

/-- C3 (code bug): scanning `"<5"`, where the character after `<` is `5` and
not `=`, still emits the combined `LessEqual` token (with lexeme `"<5"`) and
consumes the `5` — `peek_match` discards its comparison (`false;` is a
statement, not a return) and unconditionally consumes and answers true. -/
theorem scan_less_digit_emits_combined :
    scan "<5" = Res.ok [Token.new "<5" TokenKind.LessEqual 1 1,
      Token.new "" TokenKind.Eof 1 1] := by decide

/-- C4 (code bug): scanning `"1 + 2"` does not return the claimed token
sequence; it panics.  The digit dispatch of `scan_token` inspects the
character after the consumed one, so the final `2` makes `peek` unwrap past
the end of input (and `1` would produce no token at all, its "Unexpected
character." error being constructed and discarded). -/
theorem scan_one_plus_two_panics : scan "1 + 2" = Res.panic := by decide

/-- C5 (code bug): scanning the unterminated string `"abc` does not return the
Syntax error the claim states; the string loop's `peek` unwraps past the end
of input and panics (the "Unterminated string literal" error in the source is
constructed and discarded, never returned). -/
theorem scan_unterminated_string_panics : scan "\"abc" = Res.panic := by decide

/-- C6 (code bug): `scan` is not total — on the one-character input `"1"` it
panics inside `peek` (the end-of-input guard discards `'\0'` instead of
returning it, and the subsequent `unwrap` aborts) instead of reporting a
structured error. -/
theorem scan_digit_at_end_panics : scan "1" = Res.panic := by decide

/-- C8: `is_truthy v` is false exactly when `v = Bool false` (in particular
`Nil` is truthy), and unary `!` applied to any successfully evaluated operand
returns the boolean negation of that truthiness. -/
theorem truthiness_bang :
    (∀ v : Value, is_truthy v = false ↔ v = Value.Bool false) ∧
    ∀ (op : Token) (right : Expr) (rv : Value), op.kind = TokenKind.Bang →
      evaluate right = Except.ok rv →
      evaluate (Expr.Unary op right) = Except.ok (Value.Bool (!(is_truthy rv))) := by
  constructor
  · intro v
    cases v with
    | Bool b => cases b <;> simp [is_truthy]
    | Number n => simp [is_truthy]
    | String s => simp [is_truthy]
    | Nil => simp [is_truthy]
  · intro op right rv hk hr
    simp only [evaluate, hr, hk]

/-- Witness for C8: `!nil` evaluates to `Bool false` (so `Nil` is truthy). -/
theorem truthiness_bang_witness :
    evaluate (Expr.Unary (Token.new "!" TokenKind.Bang 1 1) (Expr.Literal Literal.Nil)) =
      Except.ok (Value.Bool (!(is_truthy Value.Nil))) ∧
    is_truthy Value.Nil = true :=
  ⟨truthiness_bang.2 (Token.new "!" TokenKind.Bang 1 1) (Expr.Literal Literal.Nil)
      Value.Nil rfl rfl, rfl⟩

/-- C9: a `Ternary` node whose condition evaluates to a truthy value returns
exactly the result of the then-branch, and one whose condition evaluates to a
falsy value returns exactly the result of the else-branch — the untaken
branch (erroring or not) never influences the result. -/
theorem ternary_short_circuit :
    (∀ (c t e : Expr) (v : Value), evaluate c = Except.ok v → is_truthy v = true →
      evaluate (Expr.Ternary c t e) = evaluate t) ∧
    (∀ (c t e : Expr) (v : Value), evaluate c = Except.ok v → is_truthy v = false →
      evaluate (Expr.Ternary c t e) = evaluate e) := by
  constructor
  · intro c t e v hc hv
    simp only [evaluate, hc, hv, if_true]
    cases ht : evaluate t <;> simp [ht]
  · intro c t e v hc hv
    simp only [evaluate, hc, hv, if_false, Bool.false_eq_true]
    cases he : evaluate e <;> simp [he]

/-- Witness for C9: with a deliberately erroring sub-expression (`-true`) on
the untaken side, the taken branch's result is returned unchanged in both
directions. -/
theorem ternary_short_circuit_witness :
    evaluate (Expr.Ternary (Expr.Literal (Literal.Bool true)) (Expr.Literal (Literal.Number 1))
        (Expr.Unary (Token.new "-" TokenKind.Minus 1 1) (Expr.Literal (Literal.Bool true)))) =
      evaluate (Expr.Literal (Literal.Number 1)) ∧
    evaluate (Expr.Ternary (Expr.Literal (Literal.Bool false))
        (Expr.Unary (Token.new "-" TokenKind.Minus 1 1) (Expr.Literal (Literal.Bool true)))
        (Expr.Literal (Literal.Number 2))) =
      evaluate (Expr.Literal (Literal.Number 2)) :=
  ⟨ternary_short_circuit.1 _ _ _ (Value.Bool true) rfl rfl,
   ternary_short_circuit.2 _ _ _ (Value.Bool false) rfl rfl⟩

/-- C10: evaluating any `Binary` node whose operator token kind is not `Plus`,
`Minus`, `Star` or `Slash` — which covers every node the parser's equality and
comparison levels build (`BangEqual`, `Equal`, `Greater`, `GreaterEqual`,
`Less`, `LessEqual`) — returns the Runtime error "Invalid binary operator"
once both operands evaluate successfully. -/
theorem invalid_binary_operator_runtime_error (l r : Expr) (op : Token) (a b : Value)
    (hk : op.kind ∉ [TokenKind.Plus, TokenKind.Minus, TokenKind.Star, TokenKind.Slash])
    (hl : evaluate l = Except.ok a) (hr : evaluate r = Except.ok b) :
    evaluate (Expr.Binary l op r) =
      Except.error (Error.runtime "Invalid binary operator"
        (Position.new op.line op.column op.offset)) := by
  simp only [evaluate, hl, hr]
  simp only [List.mem_cons, List.not_mem_nil, or_false, not_or] at hk
  obtain ⟨h1, h2, h3, h4⟩ := hk
  obtain ⟨lex, k, ln, col, len, off⟩ := op
  cases k <;> simp_all

/-- Witness for C10 at `1 == 1`: an `EqualEqual` binary node evaluates to the
"Invalid binary operator" Runtime error. -/
theorem invalid_binary_operator_runtime_error_witness :
    evaluate (Expr.Binary (Expr.Literal (Literal.Number 1))
        (Token.new "==" TokenKind.EqualEqual 1 1) (Expr.Literal (Literal.Number 1))) =
      Except.error (Error.runtime "Invalid binary operator" (Position.new 1 1 0)) :=
  invalid_binary_operator_runtime_error _ _ _ _ _ (by decide) rfl rfl

end Lox
